import Mathlib

/-!
Shallow embedding of `sqlalchemy_toolbox` (file
`src/sqlalchemy_toolbox/wrappers/wrapper.py`): the `Pagination` result object,
the `FlaskBaseQuery.paginate` method, and the `SQLAlchemyWrapper` connection /
migration entry points, together with proofs of the spec's claims about them.

Python integers are modelled as `Int`; a SQL query is modelled by the ordered
list of rows it would return; the filesystem is modelled by its `isdir` /
`isfile` predicates; raising an exception is modelled by `Except.error`.
-/

namespace SqlalchemyToolbox

/-- `SQLAlchemyResolverFlaskException(status_code, message)` from
`sqlalchemy_toolbox.exceptions`: the HTTP-style error raised by the Flask-facing
query helpers. -/
structure SQLAlchemyResolverFlaskException where
  status_code : Int
  message : String
deriving Repr, DecidableEq

/-- The `Pagination` object (wrapper.py lines 54-67): page number (1-indexed),
page size, total row count (`None` allowed, hence `Option`), and the
materialized slice of rows for the current page.  The originating query handle
is not needed by any claim and is omitted. -/
structure Pagination (α : Type) where
  page : Int
  per_page : Int
  total : Option Int
  items : List α
deriving Repr, DecidableEq

/-- Exact ceiling division on `Int`: `ceilDiv t q = ⌈t / q⌉` for `q ≠ 0`,
embedding Python's `int(ceil(self.total / float(self.per_page)))`. -/
def ceilDiv (t q : Int) : Int := -((-t).fdiv q)

/-- `Pagination.pages` (wrapper.py lines 69-76):
`0` if `per_page == 0 or total is None`, else `int(ceil(total / per_page))`. -/
def Pagination.pages (p : Pagination α) : Int :=
  match p.total with
  | none => 0
  | some t => if p.per_page = 0 then 0 else ceilDiv t p.per_page

/-- Outcome of `int(request.args.get(name, default))` for one query parameter:
the parameter is absent (the default is used), present but not parseable as an
integer (`ValueError`), or present with integer value `n`. -/
inductive ArgVal where
  | absent
  | invalid
  | value (n : Int)
deriving Repr, DecidableEq

/-- The inbound Flask request's two pagination query parameters. -/
structure RequestCtx where
  pageArg : ArgVal
  perPageArg : ArgVal
deriving Repr, DecidableEq

/-- Resolution of the `page` argument (wrapper.py lines 155-166 and 180-181):
an explicitly passed page wins; otherwise it is read from the request (absent
defaults to 1, an unparseable value raises a 400 in strict mode and falls back
to 1 otherwise); with no request context it defaults to 1. -/
def resolvePage (page : Option Int) (throw_api_exception : Bool)
    (req : Option RequestCtx) :
    Except SQLAlchemyResolverFlaskException Int :=
  match page with
  | some p => Except.ok p
  | none =>
    match req with
    | none => Except.ok 1
    | some r =>
      match r.pageArg with
      | ArgVal.absent => Except.ok 1
      | ArgVal.value n => Except.ok n
      | ArgVal.invalid =>
        if throw_api_exception then
          Except.error ⟨400, "Given page does not exist"⟩
        else
          Except.ok 1

/-- Resolution of the `per_page` argument (wrapper.py lines 168-178 and
183-184), symmetric to `resolvePage` with default 20. -/
def resolvePerPage (per_page : Option Int) (throw_api_exception : Bool)
    (req : Option RequestCtx) :
    Except SQLAlchemyResolverFlaskException Int :=
  match per_page with
  | some pp => Except.ok pp
  | none =>
    match req with
    | none => Except.ok 20
    | some r =>
      match r.perPageArg with
      | ArgVal.absent => Except.ok 20
      | ArgVal.value n => Except.ok n
      | ArgVal.invalid =>
        if throw_api_exception then
          Except.error ⟨400, "Given per page value does not exist"⟩
        else
          Except.ok 20

/-- Validation of the resolved page (wrapper.py lines 186-193): `page < 1`
raises a 400 in strict mode and falls back to 1 otherwise. -/
def checkPage (page : Int) (throw_api_exception : Bool) :
    Except SQLAlchemyResolverFlaskException Int :=
  if page < 1 then
    if throw_api_exception then
      Except.error ⟨400, "Page value is negative"⟩
    else
      Except.ok 1
  else
    Except.ok page

/-- Validation of the resolved per_page (wrapper.py lines 195-202):
`per_page < 0` raises a 400 in strict mode and falls back to 20 otherwise. -/
def checkPerPage (per_page : Int) (throw_api_exception : Bool) :
    Except SQLAlchemyResolverFlaskException Int :=
  if per_page < 0 then
    if throw_api_exception then
      Except.error ⟨400, "Per page value is negative"⟩
    else
      Except.ok 20
  else
    Except.ok per_page

/-- `self.limit(per_page).offset((page - 1) * per_page).all()` (wrapper.py
line 204) over the query's row list: SQL `LIMIT per_page OFFSET (page-1)*per_page`.
Only evaluated after validation, so `page ≥ 1` and `per_page ≥ 0`. -/
def sliceItems (rows : List α) (page per_page : Int) : List α :=
  (rows.drop ((page - 1) * per_page).toNat).take per_page.toNat

/-- `FlaskBaseQuery.paginate` (wrapper.py lines 149-213).  `rows` is the list
of rows of the underlying query, `req` the Flask request context (`none` when
no request is active).  Returns the `Pagination` object or the raised
`SQLAlchemyResolverFlaskException`. -/
def paginate (rows : List α) (page per_page : Option Int)
    (throw_api_exception : Bool) (req : Option RequestCtx) :
    Except SQLAlchemyResolverFlaskException (Pagination α) :=
  match resolvePage page throw_api_exception req with
  | Except.error e => Except.error e
  | Except.ok page0 =>
    match resolvePerPage per_page throw_api_exception req with
    | Except.error e => Except.error e
    | Except.ok per_page0 =>
      match checkPage page0 throw_api_exception with
      | Except.error e => Except.error e
      | Except.ok p =>
        match checkPerPage per_page0 throw_api_exception with
        | Except.error e => Except.error e
        | Except.ok pp =>
          let items := sliceItems rows p pp
          if items.isEmpty ∧ p ≠ 1 ∧ throw_api_exception = true then
            Except.error ⟨400, "No values"⟩
          else
            Except.ok ⟨p, pp, some (rows.length : Int), items⟩

/-- Errors raised inside `SQLAlchemyWrapper` methods: the library's own
`SQLAlchemyWrapperException(message)` (from `sqlalchemy_toolbox.exceptions`),
Python's built-in `TypeError` (e.g. `os.path.join` on `None`) and `KeyError`
(missing dict key). -/
inductive PyError where
  | wrapperException (message : String)
  | typeError
  | keyError
deriving Repr, DecidableEq

/-- The `Config` mapping (from `sqlalchemy_toolbox.configuration`, used as a
dict): the three keys `connect_sqlite` writes — `DATABASE_URL`,
`DATABASE_TYPE`, `DATABASE_PATH` — each absent (`none`) until assigned.
`Config()` is `Config.empty`. -/
structure Config where
  url : Option String
  dbType : Option String
  path : Option String
deriving Repr, DecidableEq

/-- A fresh `Config()` with no keys set. -/
def Config.empty : Config := ⟨none, none, none⟩

/-- The filesystem as seen through `os.path.isdir` and `os.path.isfile`. -/
structure FileSystem where
  isDir : String → Bool
  isFile : String → Bool

/-- The mutable attributes of `SQLAlchemyWrapper` the claims are about:
`config`, `engine` (modelled by the URL it was created from, `none` before
`initialize_engine` runs), `connected`, and `_url`. -/
structure WrapperState where
  config : Option Config
  engine : Option String
  connected : Bool
  url : Option String
deriving Repr, DecidableEq

/-- A freshly constructed `SQLAlchemyWrapper()`. -/
def WrapperState.init : WrapperState := ⟨none, none, false, none⟩

/-- Python truthiness of an optional string (`if connection_url:`). -/
def strTruthy : Option String → Bool
  | none => false
  | some s => decide (s ≠ "")

/-- `os.path.join(a, b)`: raises `TypeError` when either argument is `None`. -/
def pathJoin : Option String → Option String → Except PyError String
  | some a, some b => Except.ok (a ++ "/" ++ b)
  | _, _ => Except.error PyError.typeError

/-- Tail of `SQLAlchemyWrapper.connect_sqlite` (wrapper.py lines 356-372),
reached unconditionally after the branch on `connection_url`: join the
directory path and database name (a `TypeError` when either is `None`), append
`.sqlite3`, create the file if missing (`os.mknod`), derive the
`sqlite:////...` URL, build the engine and session, and mark the wrapper
connected.  An error carries the wrapper state at raise time. -/
def connectSqliteJoin (s : WrapperState) (fs : FileSystem)
    (database_directory_path database_name : Option String) :
    Except (PyError × WrapperState) (WrapperState × FileSystem) :=
  match pathJoin database_directory_path database_name with
  | Except.error e => Except.error (e, s)
  | Except.ok joined =>
    let database_path := joined ++ ".sqlite3"
    let c1 := { (s.config.getD Config.empty) with path := some database_path }
    let fs2 :=
      if fs.isFile database_path then fs
      else { fs with isFile := fun q => q = database_path || fs.isFile q }
    let database_url := "sqlite:////" ++ database_path
    let c2 := { c1 with url := some database_url, dbType := some "sqlite3" }
    Except.ok
      ({ s with
          config := some c2
          url := some database_url
          engine := some database_url
          connected := true },
        fs2)

/-- `SQLAlchemyWrapper.connect_sqlite` (wrapper.py lines 329-372).  When
`connection_url` is truthy, the config is reset to hold only that URL and no
precondition is checked; otherwise the directory path and database name are
validated (`SQLAlchemyWrapperException` on a missing argument or a path that
is not a directory).  Either way control then falls through to
`connectSqliteJoin`.  An error carries the wrapper state at raise time. -/
def connect_sqlite (s : WrapperState) (fs : FileSystem)
    (database_directory_path database_name connection_url : Option String) :
    Except (PyError × WrapperState) (WrapperState × FileSystem) :=
  if strTruthy connection_url then
    let s1 := { s with config := some { Config.empty with url := connection_url } }
    connectSqliteJoin s1 fs database_directory_path database_name
  else
    let s1 := { s with config := some Config.empty }
    match database_directory_path with
    | none =>
      Except.error
        (PyError.wrapperException "Missing configuration database_directory_path", s1)
    | some d =>
      if fs.isDir d then
        match database_name with
        | none =>
          Except.error
            (PyError.wrapperException "Missing configuration database_name", s1)
        | some _ => connectSqliteJoin s1 fs database_directory_path database_name
      else
        Except.error
          (PyError.wrapperException "Given database path is not a directory", s1)

/-- The on-disk ini configuration store, read as
`path → section → key → value`. -/
def IniStore := String → String → String → Option String

/-- Modelled from the spec: `configure_alembic(database_url, alembic_ini_path)`
lives in `sqlalchemy_toolbox.migrations`, which is not among the sources; per
the spec it rewrites the migration tool's ini-style configuration at the given
path so that section `alembic`, key `sqlalchemy.url` holds the current
database URL. -/
def configure_alembic (database_url : String) (alembic_ini_path : String)
    (ini : IniStore) : IniStore :=
  fun p sec key =>
    if p = alembic_ini_path ∧ sec = "alembic" ∧ key = "sqlalchemy.url" then
      some database_url
    else
      ini p sec key

/-- `SQLAlchemyWrapper.initialize_migrations` (wrapper.py lines 260-288):
requires a connected wrapper; checks — each one skipped when
`raise_exception` is false — that the migrations directory and its `alembic`
subdirectory exist and that `alembic.ini` exists; then rewrites the ini file
with `configure_alembic(self.config[DATABASE_URL], alembic_ini_path)`.
Returns the updated ini store. -/
def initialize_migrations (s : WrapperState) (fs : FileSystem) (ini : IniStore)
    (migrations_directory : String) (raise_exception : Bool) :
    Except PyError IniStore :=
  if s.connected = false then
    Except.error (PyError.wrapperException "SQLAlchemy wrapper is not connected")
  else
    let alembic_dir := migrations_directory ++ "/alembic"
    if fs.isDir migrations_directory = false ∧ raise_exception = true then
      Except.error (PyError.wrapperException "Migration directory does not exist")
    else if fs.isDir alembic_dir = false ∧ raise_exception = true then
      Except.error
        (PyError.wrapperException "Alembic migration directory does not exist")
    else
      let alembic_ini_path := migrations_directory ++ "/alembic.ini"
      if fs.isFile alembic_ini_path = false ∧ raise_exception = true then
        Except.error (PyError.wrapperException "Alembic ini file does not exist")
      else
        match s.config with
        | none => Except.error PyError.typeError
        | some c =>
          match c.url with
          | none => Except.error PyError.keyError
          | some u => Except.ok (configure_alembic u alembic_ini_path ini)

/-- The page count determined by a total row count and a page size, the value
`Pagination.pages` computes when `total` is present. -/
def numPages (total per_page : Int) : Int :=
  if per_page = 0 then 0 else ceilDiv total per_page

/-- The config `connect_sqlite` holds right after its `connection_url`
branch: a fresh `Config()` whose only key is `DATABASE_URL`. -/
def urlOnlyConfig (u : String) : Config := ⟨some u, none, none⟩

/-- A wrapper state whose config was just reset to `urlOnlyConfig u`. -/
def withUrlOnlyConfig (s : WrapperState) (u : String) : WrapperState :=
  { s with config := some (urlOnlyConfig u) }

/-- Concrete fixture: a filesystem on which every path exists. -/
def fullFS : FileSystem := ⟨fun _ => true, fun _ => true⟩

/-- Concrete fixture: a filesystem on which no path exists. -/
def emptyFS : FileSystem := ⟨fun _ => false, fun _ => false⟩

/-- Concrete fixture: an ini store with no keys set. -/
def emptyIni : IniStore := fun _ _ _ => none

/-- Concrete fixture: the configuration of a wrapper connected to a SQLite
file, as `connect_sqlite` builds it. -/
def sampleConfig : Config :=
  ⟨some "sqlite:////data/app.sqlite3", some "sqlite3", some "/data/app.sqlite3"⟩

/-- Concrete fixture: a wrapper in the connected state. -/
def sampleConnected : WrapperState :=
  ⟨some sampleConfig, some "sqlite:////data/app.sqlite3", true,
    some "sqlite:////data/app.sqlite3"⟩

end SqlalchemyToolbox

namespace SqlalchemyToolbox

lemma pages_mk_some (a b t : Int) (l : List α) :
    (Pagination.mk a b (some t) l).pages = numPages t b := rfl

lemma pages_total_some {α : Type} (p : Pagination α) (t : Int)
    (ht : p.total = some t) : p.pages = numPages t p.per_page := by
  obtain ⟨a, b, tot, l⟩ := p
  cases ht
  rfl

lemma ceilDiv_bounds (t q : Int) (hq : 0 < q) :
    (ceilDiv t q - 1) * q < t ∧ t ≤ ceilDiv t q * q := by
  unfold ceilDiv
  rw [Int.fdiv_eq_ediv _ hq.le]
  constructor
  · have h := Int.lt_ediv_add_one_mul_self (-t) hq
    nlinarith [h]
  · have h := Int.ediv_mul_le (-t) hq.ne'
    nlinarith [h]

lemma ceilDiv_eq_rat_ceil (t q : Int) (hq : 0 < q) :
    ceilDiv t q = ⌈(t : ℚ) / (q : ℚ)⌉ := by
  obtain ⟨h1, h2⟩ := ceilDiv_bounds t q hq
  have hq' : (0 : ℚ) < (q : ℚ) := by exact_mod_cast hq
  symm
  rw [Int.ceil_eq_iff]
  constructor
  · rw [lt_div_iff₀ hq']
    exact_mod_cast h1
  · rw [div_le_iff₀ hq']
    exact_mod_cast h2

lemma ceilDiv_nonneg (t q : Int) (ht : 0 ≤ t) (hq : 0 < q) :
    0 ≤ ceilDiv t q := by
  obtain ⟨-, h2⟩ := ceilDiv_bounds t q hq
  nlinarith [h2]

lemma ceilDiv_zero_left (q : Int) : ceilDiv 0 q = 0 := by
  unfold ceilDiv
  simp [Int.zero_fdiv]

/-- C1: for every `Pagination` result with a present total, `pages` equals
`ceil(total / per_page)` when `per_page > 0` and `0` when `per_page = 0`; for
`total = 0` it is `0` regardless of `per_page`; and a total of 95 with a page
size of 20 yields 5 pages. -/
theorem pagination_pages_spec {α : Type} (p : Pagination α) (t : Int)
    (ht : p.total = some t) :
    (0 < p.per_page → p.pages = ⌈(t : ℚ) / (p.per_page : ℚ)⌉) ∧
    (p.per_page = 0 → p.pages = 0) ∧
    (t = 0 → p.pages = 0) ∧
    (Pagination.mk 1 20 (some 95) ([] : List Unit)).pages = 5 := by
  rw [pages_total_some p t ht]
  refine ⟨?_, ?_, ?_, by decide⟩
  · intro hpp
    unfold numPages
    rw [if_neg hpp.ne']
    exact ceilDiv_eq_rat_ceil t p.per_page hpp
  · intro h0
    unfold numPages
    rw [if_pos h0]
  · intro ht0
    subst ht0
    unfold numPages
    by_cases hq : p.per_page = 0
    · rw [if_pos hq]
    · rw [if_neg hq, ceilDiv_zero_left]

/-- Witness for C1 at the concrete pagination of 95 rows in pages of 20. -/
theorem pagination_pages_spec_witness :
    (0 < (Pagination.mk 1 20 (some 95) ([] : List Unit)).per_page →
      (Pagination.mk 1 20 (some 95) ([] : List Unit)).pages =
        ⌈((95 : Int) : ℚ) /
          ((Pagination.mk 1 20 (some 95) ([] : List Unit)).per_page : ℚ)⌉) ∧
    ((Pagination.mk 1 20 (some 95) ([] : List Unit)).per_page = 0 →
      (Pagination.mk 1 20 (some 95) ([] : List Unit)).pages = 0) ∧
    ((95 : Int) = 0 → (Pagination.mk 1 20 (some 95) ([] : List Unit)).pages = 0) ∧
    (Pagination.mk 1 20 (some 95) ([] : List Unit)).pages = 5 :=
  pagination_pages_spec (Pagination.mk 1 20 (some 95) ([] : List Unit)) 95 rfl
lemma paginate_some_some {α : Type} (rows : List α) (p pp : Int)
    (throw_api_exception : Bool) (req : Option RequestCtx) :
    paginate rows (some p) (some pp) throw_api_exception req =
      match checkPage p throw_api_exception with
      | Except.error e => Except.error e
      | Except.ok p1 =>
        match checkPerPage pp throw_api_exception with
        | Except.error e => Except.error e
        | Except.ok pp1 =>
          if (sliceItems rows p1 pp1).isEmpty ∧ p1 ≠ 1 ∧
              throw_api_exception = true then
            Except.error ⟨400, "No values"⟩
          else
            Except.ok ⟨p1, pp1, some (rows.length : Int),
              sliceItems rows p1 pp1⟩ := rfl

lemma paginate_page_fallback {α : Type} (rows : List α) (p pp : Int)
    (req : Option RequestCtx) (hp : p < 1) :
    paginate rows (some p) (some pp) false req =
      paginate rows (some 1) (some pp) false req := by
  rw [paginate_some_some, paginate_some_some]
  unfold checkPage
  rw [if_pos hp, if_neg (by omega : ¬ (1 : Int) < 1)]
  simp

lemma paginate_page_error {α : Type} (rows : List α) (p pp : Int)
    (req : Option RequestCtx) (hp : p < 1) :
    paginate rows (some p) (some pp) true req =
      Except.error ⟨400, "Page value is negative"⟩ := by
  rw [paginate_some_some]
  unfold checkPage
  rw [if_pos hp]
  simp

lemma paginate_pp_fallback {α : Type} (rows : List α) (p pp : Int)
    (req : Option RequestCtx) (hpp : pp < 0) :
    paginate rows (some p) (some pp) false req =
      paginate rows (some p) (some 20) false req := by
  rw [paginate_some_some, paginate_some_some]
  unfold checkPerPage
  rw [if_pos hpp, if_neg (by omega : ¬ (20 : Int) < 0)]
  simp

lemma paginate_pp_error {α : Type} (rows : List α) (p pp : Int)
    (req : Option RequestCtx) (hp : ¬ p < 1) (hpp : pp < 0) :
    paginate rows (some p) (some pp) true req =
      Except.error ⟨400, "Per page value is negative"⟩ := by
  rw [paginate_some_some]
  unfold checkPage checkPerPage
  rw [if_neg hp, if_pos hpp]
  simp

lemma paginate_pp_zero {α : Type} (rows : List α) (b : Bool)
    (req : Option RequestCtx) :
    paginate rows (some 1) (some 0) b req =
      Except.ok ⟨1, 0, some (rows.length : Int), []⟩ := by
  rw [paginate_some_some]
  unfold checkPage checkPerPage
  rw [if_neg (by omega : ¬ (1 : Int) < 1), if_neg (by omega : ¬ (0 : Int) < 0)]
  have hsl : sliceItems rows 1 0 = [] := by
    unfold sliceItems
    simp
  simp [hsl]

/-- C2: calling `paginate` with `page < 1` behaves, in non-strict mode,
exactly like the same call with `page = 1`; in strict mode it raises the
HTTP-400 request-input exception. -/
theorem paginate_page_lt_one {α : Type} (rows : List α) (p pp : Int)
    (req : Option RequestCtx) (hp : p < 1) :
    paginate rows (some p) (some pp) false req =
      paginate rows (some 1) (some pp) false req ∧
    paginate rows (some p) (some pp) true req =
      Except.error ⟨400, "Page value is negative"⟩ :=
  ⟨paginate_page_fallback rows p pp req hp,
    paginate_page_error rows p pp req hp⟩

/-- Witness for C2 at `page = 0`, `per_page = 2` over three rows. -/
theorem paginate_page_lt_one_witness :
    paginate ([10, 11, 12] : List Int) (some 0) (some 2) false none =
      paginate ([10, 11, 12] : List Int) (some 1) (some 2) false none ∧
    paginate ([10, 11, 12] : List Int) (some 0) (some 2) true none =
      Except.error ⟨400, "Page value is negative"⟩ :=
  paginate_page_lt_one ([10, 11, 12] : List Int) 0 2 none (by decide)

/-- C3: calling `paginate` with `per_page < 0` behaves, in non-strict mode,
exactly like the same call with `per_page = 20`; in strict mode it raises an
HTTP-400 request-input exception — the per-page one whenever the page value
itself is valid. -/
theorem paginate_per_page_neg {α : Type} (rows : List α) (p pp : Int)
    (req : Option RequestCtx) (hpp : pp < 0) :
    (paginate rows (some p) (some pp) false req =
      paginate rows (some p) (some 20) false req) ∧
    (∃ e, paginate rows (some p) (some pp) true req = Except.error e ∧
      e.status_code = 400) ∧
    (1 ≤ p → paginate rows (some p) (some pp) true req =
      Except.error ⟨400, "Per page value is negative"⟩) := by
  refine ⟨paginate_pp_fallback rows p pp req hpp, ?_, ?_⟩
  · by_cases hp : p < 1
    · exact ⟨⟨400, "Page value is negative"⟩,
        paginate_page_error rows p pp req hp, rfl⟩
    · exact ⟨⟨400, "Per page value is negative"⟩,
        paginate_pp_error rows p pp req hp hpp, rfl⟩
  · intro hp
    exact paginate_pp_error rows p pp req (by omega) hpp

/-- Witness for C3 at `page = 1`, `per_page = -5` over three rows. -/
theorem paginate_per_page_neg_witness :
    (paginate ([10, 11, 12] : List Int) (some 1) (some (-5)) false none =
      paginate ([10, 11, 12] : List Int) (some 1) (some 20) false none) ∧
    (∃ e, paginate ([10, 11, 12] : List Int) (some 1) (some (-5)) true none =
      Except.error e ∧ e.status_code = 400) ∧
    ((1 : Int) ≤ 1 → paginate ([10, 11, 12] : List Int) (some 1) (some (-5))
      true none = Except.error ⟨400, "Per page value is negative"⟩) :=
  paginate_per_page_neg ([10, 11, 12] : List Int) 1 (-5) none (by decide)

/-- C4 counterexample: `per_page = 0` is non-positive yet is used as-is in
both modes — the call succeeds and the resulting `per_page` is `0`, not the
default `20`, and no error is raised even in strict mode. -/
theorem paginate_per_page_zero_cex :
    paginate ([1, 2, 3] : List Int) (some 1) (some 0) false none =
      Except.ok ⟨1, 0, some 3, []⟩ ∧
    paginate ([1, 2, 3] : List Int) (some 1) (some 0) true none =
      Except.ok ⟨1, 0, some 3, []⟩ ∧
    (0 : Int) ≠ 20 :=
  ⟨rfl, rfl, by decide⟩

/-- C4 as amended: every page value below 1 — whatever the per-page value —
falls back to 1 (non-strict) or raises (strict), and every negative per-page
value — whatever the page value — falls back to 20 (non-strict) or raises an
HTTP-400 (strict); but a per-page value of exactly 0 passes validation and is
used as-is in both modes. -/
theorem paginate_nonpositive_amended {α : Type} (rows : List α) (p pp : Int)
    (req : Option RequestCtx) :
    (p < 1 →
      paginate rows (some p) (some pp) false req =
        paginate rows (some 1) (some pp) false req ∧
      paginate rows (some p) (some pp) true req =
        Except.error ⟨400, "Page value is negative"⟩) ∧
    (pp < 0 →
      paginate rows (some p) (some pp) false req =
        paginate rows (some p) (some 20) false req ∧
      ∃ e, paginate rows (some p) (some pp) true req = Except.error e ∧
        e.status_code = 400) ∧
    (paginate rows (some 1) (some 0) false req =
      Except.ok ⟨1, 0, some (rows.length : Int), []⟩) ∧
    (paginate rows (some 1) (some 0) true req =
      Except.ok ⟨1, 0, some (rows.length : Int), []⟩) := by
  refine ⟨?_, ?_, paginate_pp_zero rows false req, paginate_pp_zero rows true req⟩
  · intro hp
    exact ⟨paginate_page_fallback rows p pp req hp,
      paginate_page_error rows p pp req hp⟩
  · intro hpp
    refine ⟨paginate_pp_fallback rows p pp req hpp, ?_⟩
    by_cases hp : p < 1
    · exact ⟨⟨400, "Page value is negative"⟩,
        paginate_page_error rows p pp req hp, rfl⟩
    · exact ⟨⟨400, "Per page value is negative"⟩,
        paginate_pp_error rows p pp req hp hpp, rfl⟩

lemma paginate_valid_reduce {α : Type} (rows : List α) (p pp : Int) (b : Bool)
    (req : Option RequestCtx) (hp : ¬ p < 1) (hpp : ¬ pp < 0) :
    paginate rows (some p) (some pp) b req =
      if (sliceItems rows p pp).isEmpty ∧ p ≠ 1 ∧ b = true then
        Except.error ⟨400, "No values"⟩
      else
        Except.ok ⟨p, pp, some (rows.length : Int), sliceItems rows p pp⟩ := by
  rw [paginate_some_some]
  unfold checkPage checkPerPage
  rw [if_neg hp, if_neg hpp]

lemma numPages_nonneg (t pp : Int) (ht : 0 ≤ t) (hpp : 0 ≤ pp) :
    0 ≤ numPages t pp := by
  unfold numPages
  by_cases hq : pp = 0
  · rw [if_pos hq]
  · rw [if_neg hq]
    exact ceilDiv_nonneg t pp ht (lt_of_le_of_ne hpp (Ne.symm hq))

lemma sliceItems_of_beyond {α : Type} (rows : List α) (p pp : Int)
    (hpp : 0 ≤ pp) (h : numPages (rows.length : Int) pp < p) :
    sliceItems rows p pp = [] := by
  unfold sliceItems
  rcases lt_or_eq_of_le hpp with hpos | hzero
  · have hbound := (ceilDiv_bounds (rows.length : Int) pp hpos).2
    have hnum : numPages (rows.length : Int) pp =
        ceilDiv (rows.length : Int) pp := by
      unfold numPages
      rw [if_neg hpos.ne']
    rw [hnum] at h
    have hle : (rows.length : Int) ≤ (p - 1) * pp :=
      le_trans hbound (mul_le_mul_of_nonneg_right (by omega) hpp)
    have hnn : (0 : Int) ≤ (p - 1) * pp :=
      le_trans (Int.natCast_nonneg rows.length) hle
    rw [List.drop_eq_nil_of_le ((Int.le_toNat hnn).mpr hle)]
    exact List.take_nil
  · rw [← hzero]
    simp

/-- C5: in non-strict mode, requesting a page strictly beyond the last
available page returns a `Pagination` result with an empty items list, and no
error is raised (the call returns `ok`). -/
theorem paginate_beyond_last_page {α : Type} (rows : List α) (p pp : Int)
    (req : Option RequestCtx) (hpp : 0 ≤ pp)
    (h : numPages (rows.length : Int) pp < p) :
    paginate rows (some p) (some pp) false req =
      Except.ok ⟨p, pp, some (rows.length : Int), []⟩ := by
  have hp1 : 1 ≤ p := by
    have := numPages_nonneg (rows.length : Int) pp
      (Int.natCast_nonneg rows.length) hpp
    omega
  have hsl := sliceItems_of_beyond rows p pp hpp h
  rw [paginate_valid_reduce rows p pp false req (by omega) (by omega), hsl]
  simp

/-- Witness for C5: one row, two per page, page 3 requested. -/
theorem paginate_beyond_last_page_witness :
    paginate ([10] : List Int) (some 3) (some 2) false none =
      Except.ok ⟨3, 2, some 1, []⟩ :=
  paginate_beyond_last_page ([10] : List Int) 3 2 none (by decide) (by decide)

lemma checkPage_ok_ge {x p : Int} {b : Bool} (h : checkPage x b = Except.ok p) :
    1 ≤ p := by
  unfold checkPage at h
  by_cases hx : x < 1
  · rw [if_pos hx] at h
    cases b with
    | true => simp at h
    | false =>
      simp at h
      omega
  · rw [if_neg hx] at h
    simp at h
    omega

lemma checkPerPage_ok_nonneg {x p : Int} {b : Bool}
    (h : checkPerPage x b = Except.ok p) : 0 ≤ p := by
  unfold checkPerPage at h
  by_cases hx : x < 0
  · rw [if_pos hx] at h
    cases b with
    | true => simp at h
    | false =>
      simp at h
      omega
  · rw [if_neg hx] at h
    simp at h
    omega

/-- C6: every `Pagination` object returned by a non-raising `paginate` call
satisfies `page ≥ 1` and `per_page ≥ 0`. -/
theorem paginate_ok_invariants {α : Type} (rows : List α)
    (page per_page : Option Int) (b : Bool) (req : Option RequestCtx)
    (r : Pagination α)
    (h : paginate rows page per_page b req = Except.ok r) :
    1 ≤ r.page ∧ 0 ≤ r.per_page := by
  unfold paginate at h
  split at h
  · simp at h
  · split at h
    · simp at h
    · split at h
      · simp at h
      · split at h
        · simp at h
        · dsimp only at h
          split at h
          · simp at h
          · injection h with h'
            rw [← h']
            exact ⟨checkPage_ok_ge (by assumption),
              checkPerPage_ok_nonneg (by assumption)⟩

/-- Witness for C6 at a concrete successful call. -/
theorem paginate_ok_invariants_witness :
    1 ≤ (Pagination.mk 2 2 (some 3) ([12] : List Int)).page ∧
    0 ≤ (Pagination.mk 2 2 (some 3) ([12] : List Int)).per_page :=
  paginate_ok_invariants ([10, 11, 12] : List Int) (some 2) (some 2) false
    none (Pagination.mk 2 2 (some 3) ([12] : List Int)) rfl

/-- C10: in strict mode with a valid page and page size, the HTTP-400
"No values" error is raised exactly when the materialized slice is empty and
the page is not 1; an empty slice on page 1 yields a normal `Pagination`
result with an empty items list. -/
theorem paginate_empty_strict {α : Type} (rows : List α) (p pp : Int)
    (req : Option RequestCtx) (hp : 1 ≤ p) (hpp : 0 ≤ pp) :
    (paginate rows (some p) (some pp) true req =
        Except.error ⟨400, "No values"⟩ ↔
      sliceItems rows p pp = [] ∧ p ≠ 1) ∧
    (sliceItems rows 1 pp = [] →
      paginate rows (some 1) (some pp) true req =
        Except.ok ⟨1, pp, some (rows.length : Int), []⟩) := by
  constructor
  · rw [paginate_valid_reduce rows p pp true req (by omega) (by omega)]
    by_cases hc : sliceItems rows p pp = []
    · by_cases hp1 : p = 1
      · simp [hc, hp1]
      · simp [hc, hp1]
    · simp [hc]
  · intro hsl
    rw [paginate_valid_reduce rows 1 pp true req (by omega) (by omega), hsl]
    simp

/-- Witness for C10: empty table, page 1, strict mode — a normal empty
result, and the error arises exactly for the (false) condition at page 1. -/
theorem paginate_empty_strict_witness :
    (paginate ([] : List Int) (some 1) (some 20) true none =
        Except.error ⟨400, "No values"⟩ ↔
      sliceItems ([] : List Int) 1 20 = [] ∧ (1 : Int) ≠ 1) ∧
    (sliceItems ([] : List Int) 1 20 = [] →
      paginate ([] : List Int) (some 1) (some 20) true none =
        Except.ok ⟨1, 20, some 0, []⟩) :=
  paginate_empty_strict ([] : List Int) 1 20 none (by decide) (by decide)

/-- Witness for C4's amended claim at `page = 0`, `per_page = -1`. -/
theorem paginate_nonpositive_amended_witness :
    ((0 : Int) < 1 →
      paginate ([1, 2, 3] : List Int) (some 0) (some (-1)) false none =
        paginate ([1, 2, 3] : List Int) (some 1) (some (-1)) false none ∧
      paginate ([1, 2, 3] : List Int) (some 0) (some (-1)) true none =
        Except.error ⟨400, "Page value is negative"⟩) ∧
    ((-1 : Int) < 0 →
      paginate ([1, 2, 3] : List Int) (some 0) (some (-1)) false none =
        paginate ([1, 2, 3] : List Int) (some 0) (some 20) false none ∧
      ∃ e, paginate ([1, 2, 3] : List Int) (some 0) (some (-1)) true none =
        Except.error e ∧ e.status_code = 400) ∧
    (paginate ([1, 2, 3] : List Int) (some 1) (some 0) false none =
      Except.ok ⟨1, 0, some 3, []⟩) ∧
    (paginate ([1, 2, 3] : List Int) (some 1) (some 0) true none =
      Except.ok ⟨1, 0, some 3, []⟩) :=
  paginate_nonpositive_amended ([1, 2, 3] : List Int) 0 (-1) none

/-- C7: `connect_sqlite` without a `connection_url`, on a database directory
path that is not an existing directory, raises `SQLAlchemyWrapperException`
before any engine is created: the error state keeps the caller's `engine` and
`connected` fields unchanged. -/
theorem connect_sqlite_not_a_directory (s : WrapperState) (fs : FileSystem)
    (d : String) (database_name : Option String)
    (hdir : fs.isDir d = false) :
    ∃ s1, connect_sqlite s fs (some d) database_name none =
        Except.error
          (PyError.wrapperException "Given database path is not a directory",
            s1) ∧
      s1.engine = s.engine ∧ s1.connected = s.connected := by
  refine ⟨{ s with config := some Config.empty }, ?_, rfl, rfl⟩
  unfold connect_sqlite strTruthy
  simp [hdir]

/-- Witness for C7: a fresh wrapper against an empty filesystem. -/
theorem connect_sqlite_not_a_directory_witness :
    ∃ s1, connect_sqlite WrapperState.init emptyFS (some "/data") (some "db")
        none =
        Except.error
          (PyError.wrapperException "Given database path is not a directory",
            s1) ∧
      s1.engine = WrapperState.init.engine ∧
      s1.connected = WrapperState.init.connected :=
  connect_sqlite_not_a_directory WrapperState.init emptyFS "/data"
    (some "db") rfl

/-- C9: `connect_sqlite` with only a `connection_url` never connects through
that URL: after resetting the config it falls through to the unconditional
`os.path.join(None, None)` and raises a bare `TypeError` — neither a success
nor a `SQLAlchemyWrapperException` — leaving `connected` and `engine`
unchanged. -/
theorem connect_sqlite_url_only_type_error (s : WrapperState)
    (fs : FileSystem) (u : String) (hu : u ≠ "") :
    connect_sqlite s fs none none (some u) =
      Except.error (PyError.typeError, withUrlOnlyConfig s u) ∧
    (withUrlOnlyConfig s u).connected = s.connected ∧
    (withUrlOnlyConfig s u).engine = s.engine := by
  refine ⟨?_, rfl, rfl⟩
  unfold connect_sqlite strTruthy connectSqliteJoin pathJoin
    withUrlOnlyConfig urlOnlyConfig
  simp [hu, Config.empty]

/-- Witness for C9 at a nonempty connection URL. -/
theorem connect_sqlite_url_only_type_error_witness :
    connect_sqlite WrapperState.init fullFS none none
        (some "sqlite:////data/app.sqlite3") =
      Except.error (PyError.typeError,
        withUrlOnlyConfig WrapperState.init "sqlite:////data/app.sqlite3") ∧
    (withUrlOnlyConfig WrapperState.init
      "sqlite:////data/app.sqlite3").connected =
      WrapperState.init.connected ∧
    (withUrlOnlyConfig WrapperState.init
      "sqlite:////data/app.sqlite3").engine = WrapperState.init.engine :=
  connect_sqlite_url_only_type_error WrapperState.init fullFS
    "sqlite:////data/app.sqlite3" (by decide)

/-- C8: on a connected wrapper, `initialize_migrations` over a directory with
the full alembic layout rewrites `alembic.ini` so that section `alembic`, key
`sqlalchemy.url` holds the wrapper's database URL; with any layout part
absent it raises `SQLAlchemyWrapperException`, unless `raise_exception`
is false, in which case the rewrite happens unconditionally. -/
theorem initialize_migrations_spec (s : WrapperState) (fs : FileSystem)
    (ini : IniStore) (dir : String) (c : Config) (u : String)
    (hconn : s.connected = true) (hcfg : s.config = some c)
    (hurl : c.url = some u) :
    (fs.isDir dir = true → fs.isDir (dir ++ "/alembic") = true →
      fs.isFile (dir ++ "/alembic.ini") = true →
      initialize_migrations s fs ini dir true =
        Except.ok (configure_alembic u (dir ++ "/alembic.ini") ini) ∧
      configure_alembic u (dir ++ "/alembic.ini") ini (dir ++ "/alembic.ini")
        "alembic" "sqlalchemy.url" = some u) ∧
    ((fs.isDir dir = false ∨ fs.isDir (dir ++ "/alembic") = false ∨
        fs.isFile (dir ++ "/alembic.ini") = false) →
      ∃ msg, initialize_migrations s fs ini dir true =
        Except.error (PyError.wrapperException msg)) ∧
    initialize_migrations s fs ini dir false =
      Except.ok (configure_alembic u (dir ++ "/alembic.ini") ini) := by
  refine ⟨?_, ?_, ?_⟩
  · intro h1 h2 h3
    constructor
    · unfold initialize_migrations
      simp [hconn, h1, h2, h3, hcfg, hurl]
    · unfold configure_alembic
      simp
  · intro hbad
    by_cases h1 : fs.isDir dir = false
    · refine ⟨"Migration directory does not exist", ?_⟩
      unfold initialize_migrations
      simp [hconn, h1]
    · by_cases h2 : fs.isDir (dir ++ "/alembic") = false
      · refine ⟨"Alembic migration directory does not exist", ?_⟩
        unfold initialize_migrations
        simp [hconn, h1, h2]
      · have h3 : fs.isFile (dir ++ "/alembic.ini") = false := by
          rcases hbad with hb | hb | hb
          · exact absurd hb h1
          · exact absurd hb h2
          · exact hb
        refine ⟨"Alembic ini file does not exist", ?_⟩
        unfold initialize_migrations
        simp [hconn, h1, h2, h3]
  · unfold initialize_migrations
    simp [hconn, hcfg, hurl]

/-- Witness for C8: a connected wrapper, a filesystem where the layout
exists, and an empty ini store. -/
theorem initialize_migrations_spec_witness :
    (fullFS.isDir "migrations" = true →
      fullFS.isDir ("migrations" ++ "/alembic") = true →
      fullFS.isFile ("migrations" ++ "/alembic.ini") = true →
      initialize_migrations sampleConnected fullFS emptyIni "migrations"
          true =
        Except.ok (configure_alembic "sqlite:////data/app.sqlite3"
          ("migrations" ++ "/alembic.ini") emptyIni) ∧
      configure_alembic "sqlite:////data/app.sqlite3"
        ("migrations" ++ "/alembic.ini") emptyIni
        ("migrations" ++ "/alembic.ini") "alembic" "sqlalchemy.url" =
        some "sqlite:////data/app.sqlite3") ∧
    ((fullFS.isDir "migrations" = false ∨
        fullFS.isDir ("migrations" ++ "/alembic") = false ∨
        fullFS.isFile ("migrations" ++ "/alembic.ini") = false) →
      ∃ msg, initialize_migrations sampleConnected fullFS emptyIni
          "migrations" true =
        Except.error (PyError.wrapperException msg)) ∧
    initialize_migrations sampleConnected fullFS emptyIni "migrations"
        false =
      Except.ok (configure_alembic "sqlite:////data/app.sqlite3"
        ("migrations" ++ "/alembic.ini") emptyIni) :=
  initialize_migrations_spec sampleConnected fullFS emptyIni "migrations"
    sampleConfig "sqlite:////data/app.sqlite3" rfl rfl rfl

end SqlalchemyToolbox
